import Mathlib

/-!
Shallow embedding of `src/js/gameEngine.js` (the fruit-catch game engine).

The engine is a single-threaded state machine.  Wall-clock reads
(`Date.now()`) and the two random draws of `Math.random()` are passed in
as explicit parameters; the five outbound callback slots are modelled by
a record of booleans (`Callbacks`), a slot being `true` when a callback
is registered, and every emission is collected into an explicit event
list, guarded exactly as the source guards each call by a null check.
Timer handles (`levelUpTimer`, `itemSpawnTimer`, `animationId`) are
modelled as booleans (armed / not armed); clearing a handle behind the
source's null check is the same state change as clearing it
unconditionally, so the guards disappear in the embedding.
-/

namespace FruitGame

/-- The five keys of the source's `itemTypes` catalog
(`"apple"`, `"banana"`, `"watermelon"`, `"cherry"`, `"bomb"`);
`selectItemType` only ever returns one of these keys, so the key space
is embedded as an enumeration. -/
inductive ItemType where
  | apple
  | banana
  | watermelon
  | cherry
  | bomb
deriving DecidableEq, Repr

/-- One entry of the `itemTypes` catalog. -/
structure ItemData where
  emoji : String
  score : Nat
  isFruit : Bool
deriving DecidableEq, Repr

/-- The `itemTypes` catalog from the constructor. -/
def itemTypes : ItemType → ItemData
  | .apple => ⟨"🍎", 100, true⟩
  | .banana => ⟨"🍌", 150, true⟩
  | .watermelon => ⟨"🍉", 200, true⟩
  | .cherry => ⟨"🍒", 250, true⟩
  | .bomb => ⟨"💣", 0, false⟩

/-- One entry of the per-level `levelConfig` table. -/
structure LevelCfg where
  fallDuration : Nat
  bombProbability : ℚ
deriving DecidableEq, Repr

/-- The `levelConfig` table from the constructor.  The engine only reads
`levelConfig[Math.min(level, 5)]` with `level ≥ 1`, so indices outside
1..5 (a JS `undefined` access) are unreachable; they are mapped to a
zero configuration. -/
def levelConfig : Nat → LevelCfg
  | 1 => ⟨4000, 0.05⟩
  | 2 => ⟨3500, 0.05⟩
  | 3 => ⟨3000, 0.10⟩
  | 4 => ⟨2500, 0.10⟩
  | 5 => ⟨2000, 0.20⟩
  | _ => ⟨0, 0⟩

/-- A falling item, as built by `createItem` (`y` is always 0 at
creation and never updated; progress is derived from `createdAt`). -/
structure Item where
  id : Nat
  type : ItemType
  zone : String
  y : Nat
  createdAt : Int
deriving DecidableEq, Repr

/-- Which of the five callback slots hold a registered callback
(`true` = non-null). -/
structure Callbacks where
  onScoreChange : Bool
  onItemCreate : Bool
  onItemRemove : Bool
  onBasketMove : Bool
  onGameEnd : Bool
deriving DecidableEq, Repr

/-- All five callback slots registered. -/
def allCallbacks : Callbacks := ⟨true, true, true, true, true⟩

/-- An outbound notification, one constructor per callback slot,
carrying exactly the payload the source passes. -/
inductive Event where
  | scoreChange (score level missCount maxMisses combo : Nat)
  | itemCreate (item : Item) (fallDuration : Nat)
  | itemRemove (id : Nat)
  | basketMove (zone : String)
  | gameEnd (reason : String) (score level fruitsCaught : Nat)
deriving DecidableEq, Repr

/-- The mutable fields of the `GameEngine` object. -/
structure GameState where
  score : Nat
  level : Nat
  missCount : Nat
  maxMisses : Nat
  combo : Nat
  isGameActive : Bool
  fruitsCaught : Nat
  gameStartTime : Int
  levelUpTimer : Bool
  itemSpawnTimer : Bool
  basketPosition : String
  items : List Item
  itemIdCounter : Nat
  animationId : Bool
deriving DecidableEq, Repr

/-- The state built by the `GameEngine` constructor. -/
def initialState : GameState where
  score := 0
  level := 1
  missCount := 0
  maxMisses := 3
  combo := 0
  isGameActive := false
  fruitsCaught := 0
  gameStartTime := 0
  levelUpTimer := false
  itemSpawnTimer := false
  basketPosition := "CENTER"
  items := []
  itemIdCounter := 0
  animationId := false

/-- `notifyScoreChange`: emit the score-change payload when the slot is
registered. -/
def notifyScoreChange (cb : Callbacks) (s : GameState) : List Event :=
  if cb.onScoreChange then
    [.scoreChange s.score s.level s.missCount s.maxMisses s.combo]
  else []

/-- The literal reason string `endGame` receives on a bomb catch
(the spec calls this reason "bomb caught"). -/
def bombCaughtReason : String := "폭탄을 받았습니다!"

/-- The literal reason string `endGame` receives after the third fruit
miss (the spec calls this reason "too many fruits missed"). -/
def tooManyMissesReason : String := "과일을 3번 놓쳤습니다!"

/-- `endGame(reason)`: deactivate, clear the three timer handles, emit
the terminal notification.  The item collection is not touched. -/
def endGame (cb : Callbacks) (reason : String) (s : GameState) :
    GameState × List Event :=
  let s1 := { s with isGameActive := false, levelUpTimer := false,
                     itemSpawnTimer := false, animationId := false }
  (s1,
   if cb.onGameEnd then
     [.gameEnd reason s.score s.level s.fruitsCaught]
   else [])

/-- `stop()`: deactivate, clear the three timer handles, emit one
item-removed notification per active item (each emission guarded by the
same constant null check), clear the collection. -/
def stop (cb : Callbacks) (s : GameState) : GameState × List Event :=
  let s1 := { s with isGameActive := false, levelUpTimer := false,
                     itemSpawnTimer := false, animationId := false,
                     items := [] }
  (s1,
   if cb.onItemRemove then s.items.map fun it => Event.itemRemove it.id
   else [])

/-- The body of the 20 000 ms `setInterval` callback armed by
`startLevelUpTimer`. -/
def levelUpTick (cb : Callbacks) (s : GameState) : GameState × List Event :=
  if s.level < 5 then
    let s1 := { s with level := s.level + 1 }
    (s1, notifyScoreChange cb s1)
  else (s, [])

/-- Cumulative-probability walk of `selectItemType`, in the catalog's
declared order, falling back to `"apple"` when the draw is unassigned. -/
def pickCumulative (rand : ℚ) (cum : ℚ) : List (ItemType × ℚ) → ItemType
  | [] => .apple
  | (t, p) :: rest =>
      if rand < cum + p then t else pickCumulative rand (cum + p) rest

/-- `selectItemType`: level-bracket probability table walked
cumulatively; `rand` stands for the source's `Math.random()` draw. -/
def selectItemType (rand : ℚ) (lvl : Nat) : ItemType :=
  let level := min lvl 5
  let probabilities : List (ItemType × ℚ) :=
    if level ≤ 2 then
      [(.apple, 0.40), (.banana, 0.30), (.watermelon, 0.20),
       (.cherry, 0.05), (.bomb, 0.05)]
    else if level ≤ 4 then
      [(.apple, 0.30), (.banana, 0.25), (.watermelon, 0.25),
       (.cherry, 0.10), (.bomb, 0.10)]
    else
      [(.apple, 0.25), (.banana, 0.20), (.watermelon, 0.20),
       (.cherry, 0.15), (.bomb, 0.20)]
  pickCumulative rand 0 probabilities

/-- The `zones` array of `selectRandomZone`. -/
def zones : List String := ["LEFT", "CENTER", "RIGHT"]

/-- `selectRandomZone`: `zones[Math.floor(rand * 3)]`.  `Math.random()`
draws from [0, 1), so the index is always 0, 1 or 2; the `getD` default
covers only draws outside that range, which never occur. -/
def selectRandomZone (rand : ℚ) : String :=
  zones.getD (Rat.floor (rand * 3)).toNat "LEFT"

/-- `createItem`: build the item from the current id counter and the two
random draws, append it, emit item-created with the current level's fall
duration. -/
def createItem (cb : Callbacks) (r1 r2 : ℚ) (now : Int) (s : GameState) :
    GameState × List Event :=
  let item : Item :=
    { id := s.itemIdCounter, type := selectItemType r1 s.level,
      zone := selectRandomZone r2, y := 0, createdAt := now }
  let s1 := { s with itemIdCounter := s.itemIdCounter + 1,
                     items := s.items ++ [item] }
  (s1,
   if cb.onItemCreate then
     [.itemCreate item (levelConfig (min s.level 5)).fallDuration]
   else [])

/-- The body of the self-rescheduling `spawnItem` closure of
`startItemSpawning`: bail out when inactive, otherwise create an item
and re-arm the spawn timeout. -/
def spawnItem (cb : Callbacks) (r1 r2 : ℚ) (now : Int) (s : GameState) :
    GameState × List Event :=
  if s.isGameActive then
    let r := createItem cb r1 r2 now s
    ({ r.1 with itemSpawnTimer := true }, r.2)
  else (s, [])

/-- `checkCollision`. -/
def checkCollision (item : Item) (s : GameState) : Bool :=
  item.zone == s.basketPosition

/-- `handleItemCatch`: fruit catch adds the catalog value, bumps combo
and fruitsCaught, applies the +50 / +100 bonus exactly at combo 5 / 10,
then notifies; a bomb catch ends the game. -/
def handleItemCatch (cb : Callbacks) (item : Item) (s : GameState) :
    GameState × List Event :=
  let itemData := itemTypes item.type
  if itemData.isFruit then
    let s1 := { s with score := s.score + itemData.score,
                       combo := s.combo + 1,
                       fruitsCaught := s.fruitsCaught + 1 }
    let s2 :=
      if s1.combo = 5 then { s1 with score := s1.score + 50 }
      else if s1.combo = 10 then { s1 with score := s1.score + 100 }
      else s1
    (s2, notifyScoreChange cb s2)
  else
    endGame cb bombCaughtReason s

/-- `handleItemMiss`: a fruit miss bumps missCount, zeroes combo,
notifies, and ends the game once missCount reaches maxMisses; a bomb
miss changes nothing. -/
def handleItemMiss (cb : Callbacks) (item : Item) (s : GameState) :
    GameState × List Event :=
  let itemData := itemTypes item.type
  if itemData.isFruit then
    let s1 := { s with missCount := s.missCount + 1, combo := 0 }
    let e1 := notifyScoreChange cb s1
    if s1.maxMisses ≤ s1.missCount then
      let r := endGame cb tooManyMissesReason s1
      (r.1, e1 ++ r.2)
    else (s1, e1)
  else (s, [])

/-- The `forEach` scan of `updateItems`: walk the snapshot of the item
list, resolve every item whose progress reached 1.0 (catch or miss
against the current basket), and record its id for removal.  The scan
mutates only scalar state; `config` is read once before the scan. -/
def updateItemsScan (cb : Callbacks) (now : Int) (cfg : LevelCfg) :
    List Item → GameState → GameState × List Nat × List Event
  | [], s => (s, [], [])
  | item :: rest, s =>
      let elapsed : Int := now - item.createdAt
      let progress : ℚ := (elapsed : ℚ) / (cfg.fallDuration : ℚ)
      if 1 ≤ progress then
        let r1 :=
          if checkCollision item s then handleItemCatch cb item s
          else handleItemMiss cb item s
        let r2 := updateItemsScan cb now cfg rest r1.1
        (r2.1, item.id :: r2.2.1, r1.2 ++ r2.2.2)
      else
        updateItemsScan cb now cfg rest s

/-- The removal pass of `updateItems`: for each recorded id, splice out
the first item carrying it (`findIndex` guards against absence) and emit
item-removed. -/
def processRemovals (cb : Callbacks) :
    List Nat → GameState → GameState × List Event
  | [], s => (s, [])
  | id :: rest, s =>
      let s1 := { s with items := s.items.eraseP fun it => it.id == id }
      let e1 : List Event := if cb.onItemRemove then [.itemRemove id] else []
      let r := processRemovals cb rest s1
      (r.1, e1 ++ r.2)

/-- `updateItems`: scan then batch removal. -/
def updateItems (cb : Callbacks) (now : Int) (s : GameState) :
    GameState × List Event :=
  let cfg := levelConfig (min s.level 5)
  let r1 := updateItemsScan cb now cfg s.items s
  let r2 := processRemovals cb r1.2.1 r1.1
  (r2.1, r1.2.2 ++ r2.2)

/-- One iteration of `gameLoop`: bail out when inactive, otherwise run
`updateItems` and re-arm the animation frame. -/
def gameLoopStep (cb : Callbacks) (now : Int) (s : GameState) :
    GameState × List Event :=
  if s.isGameActive then
    let r := updateItems cb now s
    ({ r.1 with animationId := true }, r.2)
  else (s, [])

/-- The `poseToZone` mapping of `onPoseDetected`. -/
def poseToZone : String → Option String
  | "좌" => some "LEFT"
  | "중앙" => some "CENTER"
  | "우" => some "RIGHT"
  | _ => none

/-- `onPoseDetected(pose)`: no-op unless active; unrecognized labels and
labels mapping to the current position are ignored; otherwise move the
basket and notify. -/
def onPoseDetected (cb : Callbacks) (pose : String) (s : GameState) :
    GameState × List Event :=
  if s.isGameActive then
    match poseToZone pose with
    | some newPosition =>
        if newPosition ≠ s.basketPosition then
          ({ s with basketPosition := newPosition },
           if cb.onBasketMove then [.basketMove newPosition] else [])
        else (s, [])
    | none => (s, [])
  else (s, [])

/-- `start()`: reset every mutable field, notify, arm the level-up
interval, run the first (inline) `spawnItem`, run the first `gameLoop`
iteration.  `r1`, `r2` feed the inline spawn; `now` is the session start
time. -/
def start (cb : Callbacks) (r1 r2 : ℚ) (now : Int) (s : GameState) :
    GameState × List Event :=
  let s1 := { s with isGameActive := true, score := 0, level := 1,
                     missCount := 0, combo := 0, fruitsCaught := 0,
                     basketPosition := "CENTER", items := [],
                     itemIdCounter := 0, gameStartTime := now }
  let e1 := notifyScoreChange cb s1
  let s2 := { s1 with levelUpTimer := true }
  let r3 := spawnItem cb r1 r2 now s2
  let r4 := gameLoopStep cb now r3.1
  (r4.1, e1 ++ r3.2 ++ r4.2)

/-- External stimuli that can reach the engine: the two public entry
points (`start`, `stop`, `onPoseDetected`) plus the firing of each of
the three scheduled mechanisms, each carrying its wall-clock time and
random draws. -/
inductive Cmd where
  | start (r1 r2 : ℚ) (now : Int)
  | stop
  | pose (label : String)
  | spawn (r1 r2 : ℚ) (now : Int)
  | frame (now : Int)
  | levelTimer
deriving DecidableEq, Repr

/-- One stimulus.  A scheduled callback (`spawn`, `frame`, `levelTimer`)
can only fire while its handle is armed; a cancelled timer never fires. -/
def step (cb : Callbacks) (s : GameState) : Cmd → GameState × List Event
  | .start r1 r2 now => start cb r1 r2 now s
  | .stop => stop cb s
  | .pose label => onPoseDetected cb label s
  | .spawn r1 r2 now =>
      if s.itemSpawnTimer then spawnItem cb r1 r2 now s else (s, [])
  | .frame now =>
      if s.animationId then gameLoopStep cb now s else (s, [])
  | .levelTimer =>
      if s.levelUpTimer then levelUpTick cb s else (s, [])

/-- Run a sequence of stimuli, concatenating the emitted events. -/
def run (cb : Callbacks) (s : GameState) : List Cmd → GameState × List Event
  | [] => (s, [])
  | c :: cs =>
      let r1 := step cb s c
      let r2 := run cb r1.1 cs
      (r2.1, r1.2 ++ r2.2)

/-- Ids carried by item-created notifications of a trace. -/
def createdIds (evs : List Event) : List Nat :=
  evs.filterMap fun e =>
    match e with
    | .itemCreate item _ => some item.id
    | _ => none

/-- Ids carried by item-removed notifications of a trace. -/
def removedIds (evs : List Event) : List Nat :=
  evs.filterMap fun e =>
    match e with
    | .itemRemove id => some id
    | _ => none

/-- Whether the slot an event would be delivered through is registered. -/
def enabledFor (cb : Callbacks) : Event → Bool
  | .scoreChange .. => cb.onScoreChange
  | .itemCreate .. => cb.onItemCreate
  | .itemRemove .. => cb.onItemRemove
  | .basketMove .. => cb.onBasketMove
  | .gameEnd .. => cb.onGameEnd

/-- Ids of the items of a collection, in collection order. -/
def itemIds (l : List Item) : List Nat := l.map Item.id

/-- Whether a stimulus is a call to `start` (begins a new session). -/
def Cmd.isStart : Cmd → Bool
  | .start .. => true
  | _ => false

/-- The resolution test of the `updateItems` scan, as a predicate on the
item: progress `(now − createdAt) / fallDuration` has reached 1.0. -/
def resolvesAt (now : Int) (cfg : LevelCfg) (it : Item) : Bool :=
  decide (1 ≤ ((now - it.createdAt : Int) : ℚ) / (cfg.fallDuration : ℚ))

/-- The apple item used by concrete scenarios (a 100-point fruit). -/
def appleItem : Item :=
  { id := 0, type := .apple, zone := "CENTER", y := 0, createdAt := 0 }

/-- `n` consecutive catches of `appleItem`. -/
def catchRepeat : Nat → GameState → GameState
  | 0, s => s
  | n + 1, s => catchRepeat n (handleItemCatch allCallbacks appleItem s).1

/-- The bomb item used to witness claim C4. -/
def bombItem : Item :=
  { id := 0, type := .bomb, zone := "LEFT", y := 0, createdAt := 0 }

/-- An active state obtained from the constructor state. -/
def activeInit : GameState := { initialState with isGameActive := true }

/-- The miss-count safety property the engine actually maintains:
`maxMisses` is the constant 3, and any state whose missCount has reached
or passed `maxMisses` is no longer active. -/
def MissInv (s : GameState) : Prop :=
  s.maxMisses = 3 ∧ (s.maxMisses ≤ s.missCount → s.isGameActive = false)

/-- A freshly started running state (all three timing mechanisms armed). -/
def runningBase : GameState :=
  { initialState with
      isGameActive := true, levelUpTimer := true,
      itemSpawnTimer := true, animationId := true }

/-- A banana item in zone LEFT created at time 0 (draw 1/2 at level 1). -/
def bananaLeft (i : Nat) : Item :=
  { id := i, type := .banana, zone := "LEFT", y := 0, createdAt := 0 }

/-- Trace refuting claim C1: four fruits spawn into zone LEFT while the
basket is at CENTER and no frame fires until all four have landed, so
one frame resolves four misses at once. -/
def C1cmds : List Cmd :=
  [.start (1/2) 0 0, .spawn (1/2) 0 0, .spawn (1/2) 0 0, .spawn (1/2) 0 0,
   .frame 5000]

/-- Intermediate states of the C1 trace. -/
def C1s : Nat → GameState
  | 0 => { runningBase with items := [bananaLeft 0], itemIdCounter := 1 }
  | 1 => { runningBase with
             items := [bananaLeft 0, bananaLeft 1], itemIdCounter := 2 }
  | 2 => { runningBase with
             items := [bananaLeft 0, bananaLeft 1, bananaLeft 2],
             itemIdCounter := 3 }
  | 3 => { runningBase with
             items := [bananaLeft 0, bananaLeft 1, bananaLeft 2, bananaLeft 3],
             itemIdCounter := 4 }
  | _ => { initialState with
             missCount := 4, itemIdCounter := 4, animationId := true }

/-- The apple item of the C2 trace (caught at CENTER). -/
def appleCenter0 : Item :=
  { id := 0, type := .apple, zone := "CENTER", y := 0, createdAt := 0 }

/-- The bomb item of the C2 trace (caught at CENTER in the same frame). -/
def bombCenter1 : Item :=
  { id := 1, type := .bomb, zone := "CENTER", y := 0, createdAt := 0 }

/-- Trace refuting claim C2: an apple and a bomb, both over the basket,
land in the same frame — the apple is caught first (combo becomes 1),
then the bomb is caught and `endGame` runs with combo still 1. -/
def C2cmds : List Cmd :=
  [.start (1/10) (1/3) 0, .spawn (97/100) (1/3) 0, .frame 4000]

/-- Intermediate states of the C2 trace. -/
def C2s : Nat → GameState
  | 1 => { runningBase with items := [appleCenter0], itemIdCounter := 1 }
  | 2 => { runningBase with
             items := [appleCenter0, bombCenter1], itemIdCounter := 2 }
  | _ => { initialState with
             score := 100, combo := 1, fruitsCaught := 1,
             itemIdCounter := 2, animationId := true }

/-- Per-step event lists of the C2 trace. -/
def C2e : Nat → List Event
  | 1 => [.scoreChange 0 1 0 3 0, .itemCreate appleCenter0 4000]
  | 2 => [.itemCreate bombCenter1 4000]
  | _ => [.scoreChange 100 1 0 3 1, .gameEnd bombCaughtReason 100 1 1,
          .itemRemove 0, .itemRemove 1]

/-- The bomb item of the C3 trace. -/
def bombCenter0 : Item :=
  { id := 0, type := .bomb, zone := "CENTER", y := 0, createdAt := 0 }

/-- The apple item of the C3 trace, still airborne at game end
(spawned at 1000 with a level-5 fall duration of 2000). -/
def appleLeft1 : Item :=
  { id := 1, type := .apple, zone := "LEFT", y := 0, createdAt := 1000 }

/-- Trace refuting claim C3: the session is levelled up to 5 (fall
duration 2000), a bomb is caught at 2000 while a second item spawned at
1000 is still airborne; the session ends via `endGame` and the airborne
item's id never receives an item-removed notification. -/
def C3cmds : List Cmd :=
  [.start (97/100) (1/3) 0, .levelTimer, .levelTimer, .levelTimer,
   .levelTimer, .spawn 0 0 1000, .frame 2000]

/-- Intermediate states of the C3 trace (`C3s k` for `k` = 2..5 is the
state at level `k` before the spawn). -/
def C3s : Nat → GameState
  | 1 => { runningBase with items := [bombCenter0], itemIdCounter := 1 }
  | 6 => { runningBase with
             level := 5, items := [bombCenter0, appleLeft1],
             itemIdCounter := 2 }
  | 7 => { initialState with
             level := 5, items := [appleLeft1], itemIdCounter := 2,
             animationId := true }
  | k => { runningBase with
             level := k, items := [bombCenter0], itemIdCounter := 1 }

/-- Per-step event lists of the C3 trace. -/
def C3e : Nat → List Event
  | 1 => [.scoreChange 0 1 0 3 0, .itemCreate bombCenter0 4000]
  | 6 => [.itemCreate appleLeft1 2000]
  | 7 => [.gameEnd bombCaughtReason 0 5 0, .itemRemove 0]
  | k => [.scoreChange 0 k 0 3 0]

/-- Session bookkeeping for item ids, relating the notifications emitted
so far to the current collection: every created id is accounted for by
its removal notifications plus its presence in the collection, created
ids are pairwise distinct, and all of them are below the id counter. -/
def IdInv (evs : List Event) (s : GameState) : Prop :=
  (∀ id, (createdIds evs).count id =
      (removedIds evs).count id + (itemIds s.items).count id) ∧
  (createdIds evs).Nodup ∧
  (∀ id ∈ createdIds evs, id < s.itemIdCounter)

end FruitGame

namespace FruitGame

/-! ## Small structural lemmas shared by several claims -/

theorem run_nil (cb : Callbacks) (s : GameState) : run cb s [] = (s, []) := rfl

theorem run_cons (cb : Callbacks) (s : GameState) (c : Cmd) (cs : List Cmd) :
    run cb s (c :: cs) =
      ((run cb (step cb s c).1 cs).1,
       (step cb s c).2 ++ (run cb (step cb s c).1 cs).2) := rfl

theorem run_append (cb : Callbacks) (s : GameState) (l1 l2 : List Cmd) :
    run cb s (l1 ++ l2) =
      ((run cb (run cb s l1).1 l2).1,
       (run cb s l1).2 ++ (run cb (run cb s l1).1 l2).2) := by
  induction l1 generalizing s with
  | nil => simp [run]
  | cons c cs ih => simp [run_cons, ih, List.append_assoc]

theorem endGame_state (cb : Callbacks) (reason : String) (s : GameState) :
    (endGame cb reason s).1 =
      { s with isGameActive := false, levelUpTimer := false,
               itemSpawnTimer := false, animationId := false } := rfl

/-! ## Part of claim C4 -/

/-- Claim C4: catching a hazard (bomb) item in an active state
immediately deactivates the engine and emits the game-ended
notification with the bomb-caught reason, leaving score, combo,
missCount and fruitsCaught unchanged. -/
theorem C4_bomb_catch_fatal (s : GameState) (item : Item)
    (hb : item.type = ItemType.bomb) (ha : s.isGameActive = true) :
    (handleItemCatch allCallbacks item s).1.isGameActive = false ∧
    (handleItemCatch allCallbacks item s).1.score = s.score ∧
    (handleItemCatch allCallbacks item s).1.combo = s.combo ∧
    (handleItemCatch allCallbacks item s).1.missCount = s.missCount ∧
    (handleItemCatch allCallbacks item s).1.fruitsCaught = s.fruitsCaught ∧
    (handleItemCatch allCallbacks item s).2 =
      [Event.gameEnd bombCaughtReason s.score s.level s.fruitsCaught] := by
  simp [handleItemCatch, hb, itemTypes, endGame, allCallbacks]

/-- Witness for C4 at a concrete bomb item and active state. -/
theorem C4_bomb_catch_fatal_witness :
    (handleItemCatch allCallbacks bombItem activeInit).1.isGameActive = false ∧
    (handleItemCatch allCallbacks bombItem activeInit).2 =
      [Event.gameEnd bombCaughtReason 0 1 0] :=
  ⟨(C4_bomb_catch_fatal activeInit bombItem rfl rfl).1,
   (C4_bomb_catch_fatal activeInit bombItem rfl rfl).2.2.2.2.2⟩

/-! ## Part of claim C5 -/

/-- Claim C5: catching a fruit adds its catalog value, bumps combo and
fruitsCaught by one, adds a +50 bonus exactly when the new combo is 5
and +100 exactly when it is 10, and emits one score-change
notification; five consecutive catches of a 100-point fruit from combo
0 accumulate score 550. -/
theorem C5_fruit_catch_scoring (s : GameState) (item : Item)
    (hf : (itemTypes item.type).isFruit = true) :
    ((handleItemCatch allCallbacks item s).1.score =
       s.score + (itemTypes item.type).score +
         (if s.combo + 1 = 5 then 50 else if s.combo + 1 = 10 then 100 else 0) ∧
     (handleItemCatch allCallbacks item s).1.combo = s.combo + 1 ∧
     (handleItemCatch allCallbacks item s).1.fruitsCaught = s.fruitsCaught + 1 ∧
     (handleItemCatch allCallbacks item s).1.missCount = s.missCount ∧
     (handleItemCatch allCallbacks item s).2 =
       [Event.scoreChange (handleItemCatch allCallbacks item s).1.score s.level
          s.missCount s.maxMisses (s.combo + 1)]) ∧
    (catchRepeat 5 initialState).score = 550 ∧
    (catchRepeat 5 initialState).combo = 5 := by
  refine ⟨?_, by decide, by decide⟩
  simp only [handleItemCatch, hf, if_true, notifyScoreChange, allCallbacks]
  split_ifs <;> simp_all [Nat.add_assoc]

/-- Witness for C5: one catch of the apple item from the constructor
state scores 100 with combo 1. -/
theorem C5_fruit_catch_scoring_witness :
    (handleItemCatch allCallbacks appleItem initialState).1.score = 100 ∧
    (handleItemCatch allCallbacks appleItem initialState).1.combo = 1 ∧
    (catchRepeat 5 initialState).score = 550 :=
  ⟨(C5_fruit_catch_scoring initialState appleItem rfl).1.1,
   (C5_fruit_catch_scoring initialState appleItem rfl).1.2.1,
   (C5_fruit_catch_scoring initialState appleItem rfl).2.1⟩

/-! ## Part of claim C6 -/

/-- Claim C6: `onPoseDetected` is a silent no-op when inactive, on an
unrecognized label, and on a label mapping to the current basket
position; otherwise it moves the basket and emits exactly one
basket-move notification, changing nothing else. -/
theorem C6_pose_detection (s : GameState) (label : String) :
    (s.isGameActive = false → onPoseDetected allCallbacks label s = (s, [])) ∧
    (poseToZone label = none → onPoseDetected allCallbacks label s = (s, [])) ∧
    (∀ z, poseToZone label = some z → z = s.basketPosition →
       onPoseDetected allCallbacks label s = (s, [])) ∧
    (∀ z, poseToZone label = some z → z ≠ s.basketPosition →
       s.isGameActive = true →
       onPoseDetected allCallbacks label s =
         ({ s with basketPosition := z }, [Event.basketMove z])) := by
  refine ⟨fun h => ?_, fun h => ?_, fun z h hz => ?_, fun z h hz ha => ?_⟩
  · simp [onPoseDetected, h]
  · simp [onPoseDetected, h]
  · simp [onPoseDetected, h, hz]
  · simp [onPoseDetected, h, hz, ha, allCallbacks]

/-- Witness for C6: the label for the left zone moves the basket from
CENTER to LEFT in an active state, and an unrecognized label is
ignored. -/
theorem C6_pose_detection_witness :
    onPoseDetected allCallbacks "좌" activeInit =
      ({ activeInit with basketPosition := "LEFT" }, [Event.basketMove "LEFT"]) ∧
    onPoseDetected allCallbacks "noise" activeInit = (activeInit, []) :=
  ⟨(C6_pose_detection activeInit "좌").2.2.2 "LEFT" rfl (by decide) rfl,
   (C6_pose_detection activeInit "noise").2.1 rfl⟩

/-! ## Part of claim C7 -/

/-- Claim C7: `stop` is idempotent — a second `stop` returns the state
unchanged and emits no notification (in particular no duplicate
item-removed), and `stop` is total even with no timer armed. -/
theorem C7_stop_idempotent (cb : Callbacks) (s : GameState) :
    stop cb (stop cb s).1 = ((stop cb s).1, []) := by
  simp [stop]

/-! ## Part of claim C8 -/

/-- Claim C8: one firing of the level-up interval at level < 5 in an
active state increments the level and emits exactly one score-change
notification, leaving score, combo, missCount, fruitsCaught,
basketPosition and the item collection unchanged; fired on a fresh
session it yields level 2 and the single notification. -/
theorem C8_levelup_tick (s : GameState) (h5 : s.level < 5)
    (ha : s.isGameActive = true) :
    ((levelUpTick allCallbacks s).1.level = s.level + 1 ∧
     (levelUpTick allCallbacks s).1.score = s.score ∧
     (levelUpTick allCallbacks s).1.combo = s.combo ∧
     (levelUpTick allCallbacks s).1.missCount = s.missCount ∧
     (levelUpTick allCallbacks s).1.fruitsCaught = s.fruitsCaught ∧
     (levelUpTick allCallbacks s).1.basketPosition = s.basketPosition ∧
     (levelUpTick allCallbacks s).1.items = s.items ∧
     (levelUpTick allCallbacks s).2 =
       [Event.scoreChange s.score (s.level + 1) s.missCount s.maxMisses s.combo]) ∧
    (levelUpTick allCallbacks (start allCallbacks 0 0 0 initialState).1).1.level = 2 ∧
    (levelUpTick allCallbacks (start allCallbacks 0 0 0 initialState).1).2 =
      [Event.scoreChange 0 2 0 3 0] := by
  refine ⟨?_, ?_, ?_⟩
  · simp [levelUpTick, h5, notifyScoreChange, allCallbacks]
  · with_unfolding_all decide
  · with_unfolding_all decide

/-- Witness for C8 at the concrete fresh-session state. -/
theorem C8_levelup_tick_witness :
    (levelUpTick allCallbacks activeInit).1.level = 2 ∧
    (levelUpTick allCallbacks activeInit).2 = [Event.scoreChange 0 2 0 3 0] :=
  ⟨(C8_levelup_tick activeInit (by decide) rfl).1.1,
   (C8_levelup_tick activeInit (by decide) rfl).1.2.2.2.2.2.2.2⟩

/-! ## Part of claim C9 -/

/-- Claim C9: `endGame` leaves the item collection untouched — it
deactivates, clears the three timer handles, and emits only the single
game-ended notification (no item-removed); the items are still there
for a later `stop` to remove. -/
theorem C9_endgame_keeps_items (cb : Callbacks) (reason : String) (s : GameState) :
    (endGame cb reason s).1.items = s.items ∧
    (endGame cb reason s).1.isGameActive = false ∧
    (endGame cb reason s).1.levelUpTimer = false ∧
    (endGame cb reason s).1.itemSpawnTimer = false ∧
    (endGame cb reason s).1.animationId = false ∧
    (endGame allCallbacks reason s).2 =
      [Event.gameEnd reason s.score s.level s.fruitsCaught] ∧
    (stop allCallbacks (endGame allCallbacks reason s).1).2 =
      s.items.map fun it => Event.itemRemove it.id := by
  simp [endGame, stop, allCallbacks]

/-! ## Part of claim C2 -/

/-- Claim C2 (amended): combo is 0 after every fruit-miss resolution,
but `endGame` itself leaves combo unchanged, so combo is 0 after a game
end only when the end was caused by a fruit miss; a bomb-caught end
retains the pre-catch combo. -/
theorem C2_combo_reset_amended (cb : Callbacks) (item : Item) (s : GameState)
    (reason : String) (hf : (itemTypes item.type).isFruit = true) :
    (handleItemMiss cb item s).1.combo = 0 ∧
    (endGame cb reason s).1.combo = s.combo := by
  refine ⟨?_, rfl⟩
  simp only [handleItemMiss, hf, if_true]
  split <;> simp [endGame]

/-- Witness for C2 (amended) at a concrete fruit item. -/
theorem C2_combo_reset_amended_witness :
    (handleItemMiss allCallbacks appleItem activeInit).1.combo = 0 ∧
    (endGame allCallbacks bombCaughtReason activeInit).1.combo = 0 :=
  ⟨(C2_combo_reset_amended allCallbacks appleItem activeInit bombCaughtReason rfl).1,
   (C2_combo_reset_amended allCallbacks appleItem activeInit bombCaughtReason rfl).2⟩

end FruitGame

namespace FruitGame

/-! ## Claim C10: every emission is guarded by its callback slot -/

theorem notifyScoreChange_cb (cb : Callbacks) (s : GameState) :
    notifyScoreChange cb s =
      (notifyScoreChange allCallbacks s).filter (enabledFor cb) := by
  cases h : cb.onScoreChange <;>
    simp [notifyScoreChange, allCallbacks, enabledFor, h]

theorem filter_itemRemove_map (cb : Callbacks) (l : List Item) :
    (l.map fun it => Event.itemRemove it.id).filter (enabledFor cb) =
      if cb.onItemRemove then l.map fun it => Event.itemRemove it.id else [] := by
  induction l with
  | nil => simp
  | cons it rest ih => cases h : cb.onItemRemove <;> simp_all [enabledFor, h]

theorem endGame_cb (cb : Callbacks) (reason : String) (s : GameState) :
    (endGame cb reason s).1 = (endGame allCallbacks reason s).1 ∧
    (endGame cb reason s).2 =
      (endGame allCallbacks reason s).2.filter (enabledFor cb) := by
  cases h : cb.onGameEnd <;>
    simp [endGame, allCallbacks, enabledFor, h]

theorem stop_cb (cb : Callbacks) (s : GameState) :
    (stop cb s).1 = (stop allCallbacks s).1 ∧
    (stop cb s).2 = (stop allCallbacks s).2.filter (enabledFor cb) := by
  refine ⟨rfl, ?_⟩
  simp [stop, allCallbacks, filter_itemRemove_map]

theorem levelUpTick_cb (cb : Callbacks) (s : GameState) :
    (levelUpTick cb s).1 = (levelUpTick allCallbacks s).1 ∧
    (levelUpTick cb s).2 =
      (levelUpTick allCallbacks s).2.filter (enabledFor cb) := by
  by_cases h : s.level < 5
  · constructor
    · simp [levelUpTick, h]
    · simp only [levelUpTick, if_pos h]
      exact notifyScoreChange_cb cb _
  · simp [levelUpTick, h]

theorem createItem_cb (cb : Callbacks) (r1 r2 : ℚ) (now : Int) (s : GameState) :
    (createItem cb r1 r2 now s).1 = (createItem allCallbacks r1 r2 now s).1 ∧
    (createItem cb r1 r2 now s).2 =
      (createItem allCallbacks r1 r2 now s).2.filter (enabledFor cb) := by
  cases h : cb.onItemCreate <;>
    simp [createItem, allCallbacks, enabledFor, h]

theorem spawnItem_cb (cb : Callbacks) (r1 r2 : ℚ) (now : Int) (s : GameState) :
    (spawnItem cb r1 r2 now s).1 = (spawnItem allCallbacks r1 r2 now s).1 ∧
    (spawnItem cb r1 r2 now s).2 =
      (spawnItem allCallbacks r1 r2 now s).2.filter (enabledFor cb) := by
  have hc := createItem_cb cb r1 r2 now s
  by_cases h : s.isGameActive = true
  · simp only [spawnItem, if_pos h]
    exact ⟨by rw [hc.1], hc.2⟩
  · simp [spawnItem, h]

theorem handleItemCatch_cb (cb : Callbacks) (item : Item) (s : GameState) :
    (handleItemCatch cb item s).1 = (handleItemCatch allCallbacks item s).1 ∧
    (handleItemCatch cb item s).2 =
      (handleItemCatch allCallbacks item s).2.filter (enabledFor cb) := by
  by_cases h : (itemTypes item.type).isFruit = true
  · constructor
    · simp [handleItemCatch, h]
    · simp only [handleItemCatch, if_pos h]
      exact notifyScoreChange_cb cb _
  · simp only [handleItemCatch, if_neg h]
    exact endGame_cb cb bombCaughtReason s

theorem handleItemMiss_cb (cb : Callbacks) (item : Item) (s : GameState) :
    (handleItemMiss cb item s).1 = (handleItemMiss allCallbacks item s).1 ∧
    (handleItemMiss cb item s).2 =
      (handleItemMiss allCallbacks item s).2.filter (enabledFor cb) := by
  by_cases h : (itemTypes item.type).isFruit = true
  · by_cases h2 : s.maxMisses ≤ s.missCount + 1
    · constructor
      · simp only [handleItemMiss, if_pos h, if_pos h2]
        exact (endGame_cb cb tooManyMissesReason _).1
      · simp only [handleItemMiss, if_pos h, if_pos h2]
        rw [List.filter_append, (endGame_cb cb tooManyMissesReason _).2,
          notifyScoreChange_cb cb]
    · constructor
      · simp [handleItemMiss, h, h2]
      · simp only [handleItemMiss, if_pos h, if_neg h2]
        exact notifyScoreChange_cb cb _
  · simp [handleItemMiss, h]

theorem updateItemsScan_cb (cb : Callbacks) (now : Int) (cfg : LevelCfg)
    (l : List Item) (s : GameState) :
    (updateItemsScan cb now cfg l s).1 = (updateItemsScan allCallbacks now cfg l s).1 ∧
    (updateItemsScan cb now cfg l s).2.1 =
      (updateItemsScan allCallbacks now cfg l s).2.1 ∧
    (updateItemsScan cb now cfg l s).2.2 =
      (updateItemsScan allCallbacks now cfg l s).2.2.filter (enabledFor cb) := by
  induction l generalizing s with
  | nil => simp [updateItemsScan]
  | cons item rest ih =>
    by_cases hres : (1 : ℚ) ≤ ((now - item.createdAt : Int) : ℚ) / (cfg.fallDuration : ℚ)
    · by_cases hcol : checkCollision item s = true
      · have hc := handleItemCatch_cb cb item s
        have ihr := ih (handleItemCatch allCallbacks item s).1
        simp only [updateItemsScan, if_pos hres, if_pos hcol, hc.1, hc.2,
          List.filter_append]
        exact ⟨ihr.1, by rw [ihr.2.1], by rw [ihr.2.2]⟩
      · have hm := handleItemMiss_cb cb item s
        have ihr := ih (handleItemMiss allCallbacks item s).1
        simp only [updateItemsScan, if_pos hres, if_neg hcol, hm.1, hm.2,
          List.filter_append]
        exact ⟨ihr.1, by rw [ihr.2.1], by rw [ihr.2.2]⟩
    · simpa only [updateItemsScan, if_neg hres] using ih s

theorem processRemovals_cb (cb : Callbacks) (ids : List Nat) (s : GameState) :
    (processRemovals cb ids s).1 = (processRemovals allCallbacks ids s).1 ∧
    (processRemovals cb ids s).2 =
      (processRemovals allCallbacks ids s).2.filter (enabledFor cb) := by
  induction ids generalizing s with
  | nil => simp [processRemovals]
  | cons id rest ih =>
    have ihr := ih { s with items := s.items.eraseP fun it => it.id == id }
    cases h : cb.onItemRemove <;>
      simp [processRemovals, ihr.1, ihr.2, allCallbacks, enabledFor, h,
        List.filter_append]

theorem updateItems_cb (cb : Callbacks) (now : Int) (s : GameState) :
    (updateItems cb now s).1 = (updateItems allCallbacks now s).1 ∧
    (updateItems cb now s).2 =
      (updateItems allCallbacks now s).2.filter (enabledFor cb) := by
  have hs := updateItemsScan_cb cb now (levelConfig (min s.level 5)) s.items s
  have hr := processRemovals_cb cb
    (updateItemsScan allCallbacks now (levelConfig (min s.level 5)) s.items s).2.1
    (updateItemsScan allCallbacks now (levelConfig (min s.level 5)) s.items s).1
  simp only [updateItems, hs.1, hs.2.1, hs.2.2, List.filter_append]
  exact ⟨hr.1, by rw [hr.2]⟩

theorem gameLoopStep_cb (cb : Callbacks) (now : Int) (s : GameState) :
    (gameLoopStep cb now s).1 = (gameLoopStep allCallbacks now s).1 ∧
    (gameLoopStep cb now s).2 =
      (gameLoopStep allCallbacks now s).2.filter (enabledFor cb) := by
  have h := updateItems_cb cb now s
  by_cases ha : s.isGameActive = true
  · simp only [gameLoopStep, if_pos ha]
    exact ⟨by rw [h.1], h.2⟩
  · simp [gameLoopStep, ha]

theorem onPoseDetected_cb (cb : Callbacks) (label : String) (s : GameState) :
    (onPoseDetected cb label s).1 = (onPoseDetected allCallbacks label s).1 ∧
    (onPoseDetected cb label s).2 =
      (onPoseDetected allCallbacks label s).2.filter (enabledFor cb) := by
  by_cases ha : s.isGameActive = true
  · cases hz : poseToZone label with
    | none => simp [onPoseDetected, ha, hz]
    | some z =>
      by_cases hb : z ≠ s.basketPosition
      · cases h : cb.onBasketMove <;>
          simp [onPoseDetected, ha, hz, hb, allCallbacks, enabledFor, h]
      · simp [onPoseDetected, ha, hz, hb]
  · simp [onPoseDetected, ha]

theorem start_cb (cb : Callbacks) (r1 r2 : ℚ) (now : Int) (s : GameState) :
    (start cb r1 r2 now s).1 = (start allCallbacks r1 r2 now s).1 ∧
    (start cb r1 r2 now s).2 =
      (start allCallbacks r1 r2 now s).2.filter (enabledFor cb) := by
  have h1 := spawnItem_cb cb r1 r2 now
  have h2 := gameLoopStep_cb cb now
  simp only [start]
  constructor
  · rw [(h1 _).1, (h2 _).1]
  · rw [(h1 _).1, (h2 _).2, (h1 _).2, notifyScoreChange_cb cb,
      List.filter_append, List.filter_append]

theorem step_cb (cb : Callbacks) (s : GameState) (c : Cmd) :
    (step cb s c).1 = (step allCallbacks s c).1 ∧
    (step cb s c).2 = (step allCallbacks s c).2.filter (enabledFor cb) := by
  cases c with
  | start r1 r2 now => exact start_cb cb r1 r2 now s
  | stop => exact stop_cb cb s
  | pose label => exact onPoseDetected_cb cb label s
  | spawn r1 r2 now =>
    by_cases h : s.itemSpawnTimer = true
    · simpa only [step, if_pos h] using spawnItem_cb cb r1 r2 now s
    · simp [step, h]
  | frame now =>
    by_cases h : s.animationId = true
    · simpa only [step, if_pos h] using gameLoopStep_cb cb now s
    · simp [step, h]
  | levelTimer =>
    by_cases h : s.levelUpTimer = true
    · simpa only [step, if_pos h] using levelUpTick_cb cb s
    · simp [step, h]

/-- Claim C10: with any subset of the five callback slots registered,
every sequence of stimuli runs to exactly the same engine state as with
all callbacks registered, and the delivered notifications are exactly
those whose slot is registered — every emission is guarded by the null
check of its own slot, and no operation faults (all operations are
total functions of the state). -/
theorem C10_callback_null_guards (cb : Callbacks) (s : GameState)
    (cmds : List Cmd) :
    (run cb s cmds).1 = (run allCallbacks s cmds).1 ∧
    (run cb s cmds).2 = (run allCallbacks s cmds).2.filter (enabledFor cb) := by
  induction cmds generalizing s with
  | nil => simp [run]
  | cons c cs ih =>
    have hs := step_cb cb s c
    have ihr := ih (step allCallbacks s c).1
    simp only [run_cons, hs.1, hs.2, List.filter_append]
    exact ⟨ihr.1, by rw [ihr.2]⟩

end FruitGame

namespace FruitGame

/-! ## Claim C1: the miss-count invariant -/

theorem run_fst_cons (cb : Callbacks) (s : GameState) (c : Cmd) (cs : List Cmd) :
    (run cb s (c :: cs)).1 = (run cb (step cb s c).1 cs).1 := rfl

theorem run_fst_nil (cb : Callbacks) (s : GameState) : (run cb s []).1 = s := rfl

theorem missInv_endGame (cb : Callbacks) (reason : String) (s : GameState)
    (h : MissInv s) : MissInv (endGame cb reason s).1 :=
  ⟨h.1, fun _ => rfl⟩

theorem missInv_handleItemCatch (cb : Callbacks) (item : Item) (s : GameState)
    (h : MissInv s) : MissInv (handleItemCatch cb item s).1 := by
  by_cases hf : (itemTypes item.type).isFruit = true
  · simp only [handleItemCatch, if_pos hf]
    split_ifs <;> exact h
  · simp only [handleItemCatch, if_neg hf]
    exact missInv_endGame cb bombCaughtReason s h

theorem missInv_handleItemMiss (cb : Callbacks) (item : Item) (s : GameState)
    (h : MissInv s) : MissInv (handleItemMiss cb item s).1 := by
  by_cases hf : (itemTypes item.type).isFruit = true
  · by_cases h2 : s.maxMisses ≤ s.missCount + 1
    · simp only [handleItemMiss, if_pos hf, if_pos h2]
      exact ⟨h.1, fun _ => rfl⟩
    · simp only [handleItemMiss, if_pos hf, if_neg h2]
      exact ⟨h.1, fun hc => absurd hc h2⟩
  · simp only [handleItemMiss, if_neg hf]
    exact h

theorem missInv_updateItemsScan (cb : Callbacks) (now : Int) (cfg : LevelCfg) :
    ∀ (l : List Item) (s : GameState), MissInv s →
      MissInv (updateItemsScan cb now cfg l s).1 := by
  intro l
  induction l with
  | nil => exact fun s h => h
  | cons item rest ih =>
    intro s h
    by_cases hres : (1 : ℚ) ≤ ((now - item.createdAt : Int) : ℚ) / (cfg.fallDuration : ℚ)
    · by_cases hcol : checkCollision item s = true
      · simp only [updateItemsScan, if_pos hres, if_pos hcol]
        exact ih _ (missInv_handleItemCatch cb item s h)
      · simp only [updateItemsScan, if_pos hres, if_neg hcol]
        exact ih _ (missInv_handleItemMiss cb item s h)
    · simp only [updateItemsScan, if_neg hres]
      exact ih s h

theorem processRemovals_fst (cb : Callbacks) :
    ∀ (ids : List Nat) (s : GameState),
      (processRemovals cb ids s).1 =
        { s with items := (processRemovals cb ids s).1.items } := by
  intro ids
  induction ids with
  | nil => exact fun s => rfl
  | cons id rest ih =>
    intro s
    exact ih { s with items := s.items.eraseP fun it => it.id == id }

theorem missInv_updateItems (cb : Callbacks) (now : Int) (s : GameState)
    (h : MissInv s) : MissInv (updateItems cb now s).1 := by
  have hs := missInv_updateItemsScan cb now (levelConfig (min s.level 5)) s.items s h
  simp only [updateItems]
  rw [processRemovals_fst]
  exact ⟨hs.1, hs.2⟩

theorem missInv_gameLoopStep (cb : Callbacks) (now : Int) (s : GameState)
    (h : MissInv s) : MissInv (gameLoopStep cb now s).1 := by
  by_cases ha : s.isGameActive = true
  · simp only [gameLoopStep, if_pos ha]
    exact ⟨(missInv_updateItems cb now s h).1, (missInv_updateItems cb now s h).2⟩
  · simp only [gameLoopStep, if_neg ha]
    exact h

theorem missInv_spawnItem (cb : Callbacks) (r1 r2 : ℚ) (now : Int) (s : GameState)
    (h : MissInv s) : MissInv (spawnItem cb r1 r2 now s).1 := by
  by_cases ha : s.isGameActive = true
  · simp only [spawnItem, if_pos ha]
    exact ⟨h.1, h.2⟩
  · simp only [spawnItem, if_neg ha]
    exact h

theorem missInv_start (cb : Callbacks) (r1 r2 : ℚ) (now : Int) (s : GameState)
    (h : MissInv s) : MissInv (start cb r1 r2 now s).1 := by
  simp only [start]
  refine missInv_gameLoopStep cb now _ (missInv_spawnItem cb r1 r2 now _ ?_)
  refine ⟨h.1, fun hc => ?_⟩
  have h0 : s.maxMisses ≤ 0 := hc
  rw [h.1] at h0
  exact absurd h0 (by decide)

theorem missInv_step (cb : Callbacks) (s : GameState) (c : Cmd)
    (h : MissInv s) : MissInv (step cb s c).1 := by
  cases c with
  | start r1 r2 now => exact missInv_start cb r1 r2 now s h
  | stop => exact ⟨h.1, fun _ => rfl⟩
  | pose label =>
    have hp : (onPoseDetected cb label s).1.maxMisses = s.maxMisses ∧
        (onPoseDetected cb label s).1.missCount = s.missCount ∧
        (onPoseDetected cb label s).1.isGameActive = s.isGameActive := by
      unfold onPoseDetected
      split
      · split
        · split <;> simp
        · simp
      · simp
    simp only [step]
    refine ⟨by rw [hp.1]; exact h.1, fun hc => ?_⟩
    rw [hp.2.2]
    refine h.2 ?_
    rw [← hp.1, ← hp.2.1]
    exact hc
  | spawn r1 r2 now =>
    by_cases hg : s.itemSpawnTimer = true
    · simp only [step, if_pos hg]
      exact missInv_spawnItem cb r1 r2 now s h
    · simp only [step, if_neg hg]
      exact h
  | frame now =>
    by_cases hg : s.animationId = true
    · simp only [step, if_pos hg]
      exact missInv_gameLoopStep cb now s h
    · simp only [step, if_neg hg]
      exact h
  | levelTimer =>
    by_cases hg : s.levelUpTimer = true
    · by_cases h5 : s.level < 5
      · simp only [step, if_pos hg, levelUpTick, if_pos h5]
        exact ⟨h.1, h.2⟩
      · simp only [step, if_pos hg, levelUpTick, if_neg h5]
        exact h
    · simp only [step, if_neg hg]
      exact h

theorem missInv_run (cb : Callbacks) :
    ∀ (cmds : List Cmd) (s : GameState), MissInv s →
      MissInv (run cb s cmds).1 := by
  intro cmds
  induction cmds with
  | nil => exact fun s h => h
  | cons c cs ih =>
    intro s h
    rw [run_fst_cons]
    exact ih _ (missInv_step cb s c h)

/-- Claim C1 (amended): in every reachable state `maxMisses` is 3 and a
state whose missCount has reached or passed `maxMisses` is no longer
active — the fruit-miss handler ends the game in the very step in which
missCount reaches `maxMisses`.  However `missCount ≤ maxMisses` itself
does not hold in all reachable states: when several overdue fruits
resolve in one frame, each one increments missCount, so missCount can
pass `maxMisses` inside that single frame (see the counterexample). -/
theorem C1_missCount_invariant_amended (cb : Callbacks) (cmds : List Cmd) :
    (run cb initialState cmds).1.maxMisses = 3 ∧
    ((run cb initialState cmds).1.maxMisses ≤
        (run cb initialState cmds).1.missCount →
      (run cb initialState cmds).1.isGameActive = false) :=
  missInv_run cb cmds initialState ⟨rfl, fun hc => absurd hc (by decide)⟩

theorem C1_run_eval : (run allCallbacks initialState C1cmds).1 = C1s 5 := by
  have hfl : (Rat.floor (0 : ℚ)).toNat = 0 := by with_unfolding_all decide
  have hne : (("LEFT" : String) = "CENTER") = False :=
    eq_false (by with_unfolding_all decide)
  have hpick : selectItemType (1/2) 1 = ItemType.banana := by
    with_unfolding_all decide
  have h1 : (step allCallbacks initialState (Cmd.start (1/2) 0 0)).1 = C1s 0 := by
    norm_num [step, start, spawnItem, createItem, selectRandomZone, zones, List.getD, hfl,
      hpick, gameLoopStep, updateItems, updateItemsScan, processRemovals,
      levelConfig, notifyScoreChange, allCallbacks, initialState, runningBase,
      C1s, bananaLeft]
  have h2 : (step allCallbacks (C1s 0) (Cmd.spawn (1/2) 0 0)).1 = C1s 1 := by
    norm_num [step, spawnItem, createItem, selectRandomZone, zones, List.getD, hfl, hpick,
      levelConfig, allCallbacks, runningBase, initialState, C1s, bananaLeft]
  have h3 : (step allCallbacks (C1s 1) (Cmd.spawn (1/2) 0 0)).1 = C1s 2 := by
    norm_num [step, spawnItem, createItem, selectRandomZone, zones, List.getD, hfl, hpick,
      levelConfig, allCallbacks, runningBase, initialState, C1s, bananaLeft]
  have h4 : (step allCallbacks (C1s 2) (Cmd.spawn (1/2) 0 0)).1 = C1s 3 := by
    norm_num [step, spawnItem, createItem, selectRandomZone, zones, List.getD, hfl, hpick,
      levelConfig, allCallbacks, runningBase, initialState, C1s, bananaLeft]
  have h5 : (step allCallbacks (C1s 3) (Cmd.frame 5000)).1 = C1s 5 := by
    norm_num [step, gameLoopStep, updateItems, updateItemsScan, processRemovals,
      checkCollision, handleItemCatch, handleItemMiss, itemTypes, endGame, hne,
      notifyScoreChange, levelConfig, tooManyMissesReason, bananaLeft,
      runningBase, initialState, allCallbacks, List.eraseP, C1s]
  simp only [C1cmds, run_fst_cons, run_fst_nil, h1, h2, h3, h4, h5]

/-- Counterexample to claim C1 as stated: after the trace `C1cmds`
(reachable from the constructor state), missCount is 4 while maxMisses
is 3, so `missCount ≤ maxMisses` fails in a reachable state. -/
theorem C1_missCount_counterexample :
    (run allCallbacks initialState C1cmds).1.missCount = 4 ∧
    (run allCallbacks initialState C1cmds).1.maxMisses = 3 := by
  rw [C1_run_eval]
  exact ⟨rfl, rfl⟩

/-- Witness for C1 (amended) on the trace `C1cmds`, where missCount has
reached maxMisses: the game is indeed inactive there. -/
theorem C1_missCount_invariant_amended_witness :
    (run allCallbacks initialState C1cmds).1.maxMisses = 3 ∧
    (run allCallbacks initialState C1cmds).1.isGameActive = false :=
  ⟨(C1_missCount_invariant_amended allCallbacks C1cmds).1,
   (C1_missCount_invariant_amended allCallbacks C1cmds).2
     (by rw [C1_run_eval]; decide)⟩

/-! ## Counterexample for claim C2 -/

/-- Counterexample to claim C2 as stated: after the trace `C2cmds` the
game has ended through `endGame` (the game-ended notification with the
bomb-caught reason is in the trace), yet combo is 1, not 0 — `endGame`
does not reset the combo counter. -/
theorem C2_combo_counterexample :
    (run allCallbacks initialState C2cmds).1.combo = 1 ∧
    (run allCallbacks initialState C2cmds).1.isGameActive = false ∧
    Event.gameEnd bombCaughtReason 100 1 1 ∈
      (run allCallbacks initialState C2cmds).2 := by
  have hfl : (Rat.floor (1 : ℚ)).toNat = 1 := by with_unfolding_all decide
  have hpick1 : selectItemType (1/10) 1 = ItemType.apple := by
    with_unfolding_all decide
  have hpick2 : selectItemType (97/100) 1 = ItemType.bomb := by
    with_unfolding_all decide
  have h1 : step allCallbacks initialState (Cmd.start (1/10) (1/3) 0) =
      (C2s 1, C2e 1) := by
    norm_num [step, start, spawnItem, createItem, selectRandomZone, zones, List.getD, hfl,
      hpick1, gameLoopStep, updateItems, updateItemsScan, processRemovals,
      levelConfig, notifyScoreChange, allCallbacks, initialState, runningBase,
      C2s, C2e, appleCenter0]
  have h2 : step allCallbacks (C2s 1) (Cmd.spawn (97/100) (1/3) 0) =
      (C2s 2, C2e 2) := by
    norm_num [step, spawnItem, createItem, selectRandomZone, zones, List.getD, hfl, hpick2,
      levelConfig, allCallbacks, runningBase, initialState, C2s, C2e,
      appleCenter0, bombCenter1]
  have h3 : step allCallbacks (C2s 2) (Cmd.frame 4000) = (C2s 3, C2e 3) := by
    norm_num [step, gameLoopStep, updateItems, updateItemsScan, processRemovals,
      checkCollision, handleItemCatch, handleItemMiss, itemTypes, endGame,
      notifyScoreChange, levelConfig, bombCaughtReason, appleCenter0,
      bombCenter1, runningBase, initialState, allCallbacks, List.eraseP,
      C2s, C2e]
  have hr : run allCallbacks initialState C2cmds =
      (C2s 3, C2e 1 ++ (C2e 2 ++ (C2e 3 ++ []))) := by
    simp only [C2cmds, run_cons, run_nil, h1, h2, h3]
  rw [hr]
  decide

/-! ## Counterexample for claim C3 -/

/-- Counterexample to claim C3 as stated: in the trace `C3cmds` the
session ends via `endGame` (game-ended notification emitted) with item
id 1 announced by an item-created notification but never by an
item-removed notification — an item still airborne at a bomb-caught
game end is never removed. -/
theorem C3_roundtrip_counterexample :
    (run allCallbacks initialState C3cmds).1.isGameActive = false ∧
    Event.gameEnd bombCaughtReason 0 5 0 ∈
      (run allCallbacks initialState C3cmds).2 ∧
    createdIds (run allCallbacks initialState C3cmds).2 = [0, 1] ∧
    removedIds (run allCallbacks initialState C3cmds).2 = [0] := by
  have hfl : (Rat.floor (1 : ℚ)).toNat = 1 := by with_unfolding_all decide
  have hfl0 : (Rat.floor (0 : ℚ)).toNat = 0 := by with_unfolding_all decide
  have hpick1 : selectItemType (97/100) 1 = ItemType.bomb := by
    with_unfolding_all decide
  have hpick2 : selectItemType 0 5 = ItemType.apple := by
    with_unfolding_all decide
  have h1 : step allCallbacks initialState (Cmd.start (97/100) (1/3) 0) =
      (C3s 1, C3e 1) := by
    norm_num [step, start, spawnItem, createItem, selectRandomZone, zones, List.getD, hfl,
      hpick1, gameLoopStep, updateItems, updateItemsScan, processRemovals,
      levelConfig, notifyScoreChange, allCallbacks, initialState, runningBase,
      C3s, C3e, bombCenter0]
  have h2 : step allCallbacks (C3s 1) Cmd.levelTimer = (C3s 2, C3e 2) := by
    norm_num [step, levelUpTick, notifyScoreChange, allCallbacks, runningBase,
      initialState, C3s, C3e, bombCenter0]
  have h3 : step allCallbacks (C3s 2) Cmd.levelTimer = (C3s 3, C3e 3) := by
    norm_num [step, levelUpTick, notifyScoreChange, allCallbacks, runningBase,
      initialState, C3s, C3e, bombCenter0]
  have h4 : step allCallbacks (C3s 3) Cmd.levelTimer = (C3s 4, C3e 4) := by
    norm_num [step, levelUpTick, notifyScoreChange, allCallbacks, runningBase,
      initialState, C3s, C3e, bombCenter0]
  have h5 : step allCallbacks (C3s 4) Cmd.levelTimer = (C3s 5, C3e 5) := by
    norm_num [step, levelUpTick, notifyScoreChange, allCallbacks, runningBase,
      initialState, C3s, C3e, bombCenter0]
  have h6 : step allCallbacks (C3s 5) (Cmd.spawn 0 0 1000) = (C3s 6, C3e 6) := by
    norm_num [step, spawnItem, createItem, selectRandomZone, zones, List.getD, hfl0,
      hpick2, levelConfig, allCallbacks, runningBase, initialState, C3s, C3e,
      bombCenter0, appleLeft1]
  have h7 : step allCallbacks (C3s 6) (Cmd.frame 2000) = (C3s 7, C3e 7) := by
    norm_num [step, gameLoopStep, updateItems, updateItemsScan, processRemovals,
      checkCollision, handleItemCatch, handleItemMiss, itemTypes, endGame,
      notifyScoreChange, levelConfig, bombCaughtReason, bombCenter0, appleLeft1,
      runningBase, initialState, allCallbacks, List.eraseP, C3s, C3e]
  have hr : run allCallbacks initialState C3cmds =
      (C3s 7, C3e 1 ++ (C3e 2 ++ (C3e 3 ++ (C3e 4 ++ (C3e 5 ++ (C3e 6 ++
        (C3e 7 ++ []))))))) := by
    simp only [C3cmds, run_cons, run_nil, h1, h2, h3, h4, h5, h6, h7]
  rw [hr]
  decide

end FruitGame

namespace FruitGame

/-! ## Claim C3: id bookkeeping lemmas -/

theorem createdIds_append (l1 l2 : List Event) :
    createdIds (l1 ++ l2) = createdIds l1 ++ createdIds l2 :=
  List.filterMap_append l1 l2 _

theorem removedIds_append (l1 l2 : List Event) :
    removedIds (l1 ++ l2) = removedIds l1 ++ removedIds l2 :=
  List.filterMap_append l1 l2 _

theorem itemIds_append (l1 l2 : List Item) :
    itemIds (l1 ++ l2) = itemIds l1 ++ itemIds l2 :=
  List.map_append _ l1 l2

theorem createdIds_notify (cb : Callbacks) (s : GameState) :
    createdIds (notifyScoreChange cb s) = [] := by
  unfold notifyScoreChange
  split <;> rfl

theorem removedIds_notify (cb : Callbacks) (s : GameState) :
    removedIds (notifyScoreChange cb s) = [] := by
  unfold notifyScoreChange
  split <;> rfl

theorem createdIds_endGame (cb : Callbacks) (reason : String) (s : GameState) :
    createdIds (endGame cb reason s).2 = [] := by
  unfold endGame
  split <;> rfl

theorem removedIds_endGame (cb : Callbacks) (reason : String) (s : GameState) :
    removedIds (endGame cb reason s).2 = [] := by
  unfold endGame
  split <;> rfl

theorem handleItemCatch_ids (cb : Callbacks) (item : Item) (s : GameState) :
    (handleItemCatch cb item s).1.items = s.items ∧
    (handleItemCatch cb item s).1.itemIdCounter = s.itemIdCounter ∧
    createdIds (handleItemCatch cb item s).2 = [] ∧
    removedIds (handleItemCatch cb item s).2 = [] := by
  by_cases hf : (itemTypes item.type).isFruit = true
  · refine ⟨?_, ?_, ?_, ?_⟩ <;>
      · simp only [handleItemCatch, if_pos hf]
        split_ifs <;>
          simp [createdIds_notify, removedIds_notify]
  · refine ⟨by simp [handleItemCatch, hf, endGame],
      by simp [handleItemCatch, hf, endGame], ?_, ?_⟩
    · simp only [handleItemCatch, if_neg hf]
      exact createdIds_endGame cb _ s
    · simp only [handleItemCatch, if_neg hf]
      exact removedIds_endGame cb _ s

theorem handleItemMiss_ids (cb : Callbacks) (item : Item) (s : GameState) :
    (handleItemMiss cb item s).1.items = s.items ∧
    (handleItemMiss cb item s).1.itemIdCounter = s.itemIdCounter ∧
    createdIds (handleItemMiss cb item s).2 = [] ∧
    removedIds (handleItemMiss cb item s).2 = [] := by
  by_cases hf : (itemTypes item.type).isFruit = true
  · by_cases h2 : s.maxMisses ≤ s.missCount + 1
    · refine ⟨by simp [handleItemMiss, hf, h2, endGame],
        by simp [handleItemMiss, hf, h2, endGame], ?_, ?_⟩
      · simp only [handleItemMiss, if_pos hf, if_pos h2]
        rw [createdIds_append, createdIds_notify, createdIds_endGame]
        rfl
      · simp only [handleItemMiss, if_pos hf, if_pos h2]
        rw [removedIds_append, removedIds_notify, removedIds_endGame]
        rfl
    · refine ⟨by simp [handleItemMiss, hf, h2],
        by simp [handleItemMiss, hf, h2], ?_, ?_⟩
      · simp only [handleItemMiss, if_pos hf, if_neg h2]
        exact createdIds_notify cb _
      · simp only [handleItemMiss, if_pos hf, if_neg h2]
        exact removedIds_notify cb _
  · refine ⟨by simp [handleItemMiss, hf], by simp [handleItemMiss, hf], ?_, ?_⟩
    · simp only [handleItemMiss, if_neg hf]
      rfl
    · simp only [handleItemMiss, if_neg hf]
      rfl

theorem updateItemsScan_spec (cb : Callbacks) (now : Int) (cfg : LevelCfg) :
    ∀ (l : List Item) (s : GameState),
      (updateItemsScan cb now cfg l s).1.items = s.items ∧
      (updateItemsScan cb now cfg l s).1.itemIdCounter = s.itemIdCounter ∧
      (updateItemsScan cb now cfg l s).2.1 =
        (l.filter (resolvesAt now cfg)).map Item.id ∧
      createdIds (updateItemsScan cb now cfg l s).2.2 = [] ∧
      removedIds (updateItemsScan cb now cfg l s).2.2 = [] := by
  intro l
  induction l with
  | nil => exact fun s => ⟨rfl, rfl, rfl, rfl, rfl⟩
  | cons item rest ih =>
    intro s
    by_cases hres : (1 : ℚ) ≤ ((now - item.createdAt : Int) : ℚ) / (cfg.fallDuration : ℚ)
    · have hrb : resolvesAt now cfg item = true := decide_eq_true hres
      by_cases hcol : checkCollision item s = true
      · have hc := handleItemCatch_ids cb item s
        have ihr := ih (handleItemCatch cb item s).1
        simp only [updateItemsScan, if_pos hres, if_pos hcol,
          List.filter_cons, hrb, if_true]
        refine ⟨ihr.1.trans hc.1, ihr.2.1.trans hc.2.1, ?_, ?_, ?_⟩
        · rw [ihr.2.2.1]
          rfl
        · rw [createdIds_append, hc.2.2.1, ihr.2.2.2.1]
          rfl
        · rw [removedIds_append, hc.2.2.2, ihr.2.2.2.2]
          rfl
      · have hm := handleItemMiss_ids cb item s
        have ihr := ih (handleItemMiss cb item s).1
        simp only [updateItemsScan, if_pos hres, if_neg hcol,
          List.filter_cons, hrb, if_true]
        refine ⟨ihr.1.trans hm.1, ihr.2.1.trans hm.2.1, ?_, ?_, ?_⟩
        · rw [ihr.2.2.1]
          rfl
        · rw [createdIds_append, hm.2.2.1, ihr.2.2.2.1]
          rfl
        · rw [removedIds_append, hm.2.2.2, ihr.2.2.2.2]
          rfl
    · have hrb : resolvesAt now cfg item = false :=
        decide_eq_false hres
      simp only [updateItemsScan, if_neg hres, List.filter_cons, hrb,
        Bool.false_eq_true, if_false]
      exact ih s

theorem itemIds_cons (a : Item) (l : List Item) :
    itemIds (a :: l) = a.id :: itemIds l := rfl

theorem itemIds_eraseP (id : Nat) :
    ∀ l : List Item,
      itemIds (l.eraseP fun it => it.id == id) = (itemIds l).erase id := by
  intro l
  induction l with
  | nil => rfl
  | cons it rest ih =>
    cases h : it.id == id with
    | true => simp [List.eraseP_cons, h, List.erase_cons, itemIds]
    | false =>
      rw [List.eraseP_cons]
      simp only [h, cond_false]
      rw [itemIds_cons, itemIds_cons, List.erase_cons_tail (by simp [h]), ih]

theorem sublist_cons_erase {a : Nat} :
    ∀ {l1 l2 : List Nat}, (a :: l1).Sublist l2 → l2.Nodup →
      l1.Sublist (l2.erase a) := by
  intro l1 l2
  induction l2 generalizing l1 with
  | nil => intro h; exact absurd h (by simp)
  | cons b rest ih =>
    intro h hnd
    by_cases hba : b = a
    · subst hba
      rw [List.erase_cons_head]
      cases h with
      | cons _ htl => exact (List.sublist_cons_self b l1).trans htl
      | cons₂ _ htl => exact htl
    · rw [List.erase_cons_tail (by simp [hba])]
      cases h with
      | cons _ htl =>
        exact (ih htl (List.Nodup.of_cons hnd)).cons b
      | cons₂ _ htl => exact absurd rfl hba

theorem allCallbacks_onItemRemove : allCallbacks.onItemRemove = true := rfl

theorem processRemovals_spec :
    ∀ (ids : List Nat) (s : GameState),
      ids.Sublist (itemIds s.items) → (itemIds s.items).Nodup →
      (∀ x, (itemIds (processRemovals allCallbacks ids s).1.items).count x
          + ids.count x = (itemIds s.items).count x) ∧
      (processRemovals allCallbacks ids s).1.itemIdCounter = s.itemIdCounter ∧
      createdIds (processRemovals allCallbacks ids s).2 = [] ∧
      removedIds (processRemovals allCallbacks ids s).2 = ids := by
  intro ids
  induction ids with
  | nil => exact fun s _ _ => ⟨fun x => rfl, rfl, rfl, rfl⟩
  | cons id rest ih =>
    intro s hsub hnd
    have hmem : id ∈ itemIds s.items := hsub.subset (by simp)
    have herase : itemIds (s.items.eraseP fun it => it.id == id) =
        (itemIds s.items).erase id := itemIds_eraseP id s.items
    have hrest : rest.Sublist ((itemIds s.items).erase id) :=
      sublist_cons_erase hsub hnd
    have hnd2 : ((itemIds s.items).erase id).Nodup := hnd.erase id
    have ihr := ih { s with items := s.items.eraseP fun it => it.id == id }
      (by rw [show itemIds ({ s with items := s.items.eraseP fun it => it.id == id } : GameState).items = (itemIds s.items).erase id from herase]; exact hrest)
      (by rw [show itemIds ({ s with items := s.items.eraseP fun it => it.id == id } : GameState).items = (itemIds s.items).erase id from herase]; exact hnd2)
    simp only [processRemovals, allCallbacks_onItemRemove, if_true]
    refine ⟨fun x => ?_, ihr.2.1, ?_, ?_⟩
    · have hc := ihr.1 x
      rw [herase] at hc
      rw [List.count_cons]
      rw [List.count_erase] at hc
      by_cases hx : x = id
      · have hbeq : (id == x) = true := beq_iff_eq.mpr hx.symm
        have hpos : 0 < (itemIds s.items).count x := by
          rw [hx]
          exact List.count_pos_iff.mpr hmem
        rw [hbeq] at hc ⊢
        simp at hc ⊢
        omega
      · have hne : (id == x) = false := beq_eq_false_iff_ne.mpr (Ne.symm hx)
        rw [hne] at hc ⊢
        simp only [Bool.false_eq_true, if_false] at hc ⊢
        omega
    · rw [createdIds_append, ihr.2.2.1]
      rfl
    · rw [removedIds_append, ihr.2.2.2]
      rfl

end FruitGame

namespace FruitGame

/-! ## Claim C3: invariant preservation over a session -/

theorem createdIds_ite (c : Prop) [Decidable c] (l1 l2 : List Event)
    (h1 : createdIds l1 = []) (h2 : createdIds l2 = []) :
    createdIds (if c then l1 else l2) = [] := by
  split <;> assumption

theorem removedIds_ite (c : Prop) [Decidable c] (l1 l2 : List Event)
    (h1 : removedIds l1 = []) (h2 : removedIds l2 = []) :
    removedIds (if c then l1 else l2) = [] := by
  split <;> assumption

theorem createdIds_map_itemRemove :
    ∀ l : List Item, createdIds (l.map fun it => Event.itemRemove it.id) = [] := by
  intro l
  induction l with
  | nil => rfl
  | cons it rest ih => exact ih

theorem removedIds_map_itemRemove :
    ∀ l : List Item,
      removedIds (l.map fun it => Event.itemRemove it.id) = itemIds l := by
  intro l
  induction l with
  | nil => rfl
  | cons it rest ih => exact congrArg (it.id :: ·) ih

/-- Operations that do not touch the item collection, the id counter, or
emit item-created/item-removed notifications preserve the bookkeeping. -/
theorem idInv_aux {evs evsN : List Event} {s sN : GameState}
    (hitems : itemIds sN.items = itemIds s.items)
    (hcnt : sN.itemIdCounter = s.itemIdCounter)
    (hc : createdIds evsN = []) (hr : removedIds evsN = [])
    (h : IdInv evs s) : IdInv (evs ++ evsN) sN := by
  refine ⟨fun id => ?_, ?_, ?_⟩
  · rw [createdIds_append, removedIds_append, hc, hr, List.append_nil,
      List.append_nil, hitems]
    exact h.1 id
  · rw [createdIds_append, hc, List.append_nil]
    exact h.2.1
  · intro id hid
    rw [createdIds_append, hc, List.append_nil] at hid
    rw [hcnt]
    exact h.2.2 id hid

theorem idInv_updateItems (now : Int) (s : GameState) (evs : List Event)
    (h : IdInv evs s) :
    IdInv (evs ++ (updateItems allCallbacks now s).2)
      (updateItems allCallbacks now s).1 := by
  have hscan := updateItemsScan_spec allCallbacks now
    (levelConfig (min s.level 5)) s.items s
  have hnod : (itemIds s.items).Nodup := by
    rw [List.nodup_iff_count_le_one]
    intro a
    have h1 := h.1 a
    have h2 := List.nodup_iff_count_le_one.mp h.2.1 a
    omega
  have hsub : ((updateItemsScan allCallbacks now (levelConfig (min s.level 5))
      s.items s).2.1).Sublist
      (itemIds (updateItemsScan allCallbacks now (levelConfig (min s.level 5))
        s.items s).1.items) := by
    rw [hscan.2.2.1, hscan.1]
    exact (List.filter_sublist s.items).map Item.id
  have hnod2 : (itemIds (updateItemsScan allCallbacks now
      (levelConfig (min s.level 5)) s.items s).1.items).Nodup := by
    rw [hscan.1]
    exact hnod
  have hrem := processRemovals_spec _ _ hsub hnod2
  have hU1 : (updateItems allCallbacks now s).1 =
      (processRemovals allCallbacks
        (updateItemsScan allCallbacks now (levelConfig (min s.level 5))
          s.items s).2.1
        (updateItemsScan allCallbacks now (levelConfig (min s.level 5))
          s.items s).1).1 := rfl
  have hU2 : (updateItems allCallbacks now s).2 =
      (updateItemsScan allCallbacks now (levelConfig (min s.level 5))
        s.items s).2.2 ++
      (processRemovals allCallbacks
        (updateItemsScan allCallbacks now (levelConfig (min s.level 5))
          s.items s).2.1
        (updateItemsScan allCallbacks now (levelConfig (min s.level 5))
          s.items s).1).2 := rfl
  rw [hU1, hU2]
  refine ⟨fun id => ?_, ?_, ?_⟩
  · rw [createdIds_append, removedIds_append, createdIds_append,
      removedIds_append, hscan.2.2.2.1, hscan.2.2.2.2, hrem.2.2.1, hrem.2.2.2]
    simp only [List.nil_append, List.append_nil, List.count_append,
      List.count_nil]
    have hq := hrem.1 id
    rw [hscan.1] at hq
    have hh := h.1 id
    omega
  · rw [createdIds_append, createdIds_append, hscan.2.2.2.1, hrem.2.2.1]
    simp only [List.append_nil]
    exact h.2.1
  · intro id hid
    rw [createdIds_append, createdIds_append, hscan.2.2.2.1, hrem.2.2.1] at hid
    simp only [List.append_nil] at hid
    rw [hrem.2.1, hscan.2.1]
    exact h.2.2 id hid

theorem idInv_createItem (r1 r2 : ℚ) (now : Int) (s : GameState)
    (evs : List Event) (h : IdInv evs s) :
    IdInv (evs ++ (createItem allCallbacks r1 r2 now s).2)
      (createItem allCallbacks r1 r2 now s).1 := by
  have hev : (createItem allCallbacks r1 r2 now s).2 =
      [Event.itemCreate
        ⟨s.itemIdCounter, selectItemType r1 s.level, selectRandomZone r2, 0, now⟩
        (levelConfig (min s.level 5)).fallDuration] := rfl
  have hst : (createItem allCallbacks r1 r2 now s).1 =
      { s with itemIdCounter := s.itemIdCounter + 1,
               items := s.items ++
                 [⟨s.itemIdCounter, selectItemType r1 s.level,
                   selectRandomZone r2, 0, now⟩] } := rfl
  rw [hev, hst]
  have hnotin : s.itemIdCounter ∉ createdIds evs := fun hmem =>
    absurd (h.2.2 _ hmem) (lt_irrefl _)
  refine ⟨fun id => ?_, ?_, ?_⟩
  · rw [createdIds_append, removedIds_append, List.count_append,
      List.count_append]
    have hh := h.1 id
    have hsame : List.count id
        (createdIds [Event.itemCreate
          ⟨s.itemIdCounter, selectItemType r1 s.level, selectRandomZone r2,
            0, now⟩ (levelConfig (min s.level 5)).fallDuration]) =
        List.count id [s.itemIdCounter] := rfl
    have hsame2 : itemIds (s.items ++
        [⟨s.itemIdCounter, selectItemType r1 s.level, selectRandomZone r2,
          0, now⟩]) = itemIds s.items ++ [s.itemIdCounter] := by
      rw [itemIds_append]
      rfl
    have hrm : removedIds [Event.itemCreate
        ⟨s.itemIdCounter, selectItemType r1 s.level, selectRandomZone r2,
          0, now⟩ (levelConfig (min s.level 5)).fallDuration] =
        ([] : List Nat) := rfl
    rw [hsame, hsame2, hrm, List.count_append]
    simp only [List.count_nil]
    omega
  · rw [createdIds_append]
    have : createdIds [Event.itemCreate
        ⟨s.itemIdCounter, selectItemType r1 s.level, selectRandomZone r2,
          0, now⟩ (levelConfig (min s.level 5)).fallDuration] =
        [s.itemIdCounter] := rfl
    rw [this, List.nodup_append]
    refine ⟨h.2.1, List.nodup_singleton _, ?_⟩
    intro a ha hb
    rw [List.mem_singleton] at hb
    subst hb
    exact hnotin ha
  · intro id hid
    rw [createdIds_append] at hid
    rcases List.mem_append.mp hid with hold | hnew
    · exact Nat.lt_succ_of_lt (h.2.2 id hold)
    · have : id = s.itemIdCounter := by
        simpa [createdIds] using hnew
      subst this
      exact Nat.lt_succ_self _

theorem idInv_spawnItem (r1 r2 : ℚ) (now : Int) (s : GameState)
    (evs : List Event) (h : IdInv evs s) :
    IdInv (evs ++ (spawnItem allCallbacks r1 r2 now s).2)
      (spawnItem allCallbacks r1 r2 now s).1 := by
  by_cases ha : s.isGameActive = true
  · simp only [spawnItem, if_pos ha]
    exact idInv_createItem r1 r2 now s evs h
  · simp only [spawnItem, if_neg ha]
    rw [List.append_nil]
    exact h

theorem idInv_gameLoopStep (now : Int) (s : GameState) (evs : List Event)
    (h : IdInv evs s) :
    IdInv (evs ++ (gameLoopStep allCallbacks now s).2)
      (gameLoopStep allCallbacks now s).1 := by
  by_cases ha : s.isGameActive = true
  · simp only [gameLoopStep, if_pos ha]
    exact idInv_updateItems now s evs h
  · simp only [gameLoopStep, if_neg ha]
    rw [List.append_nil]
    exact h

theorem idInv_stop (s : GameState) (evs : List Event) (h : IdInv evs s) :
    IdInv (evs ++ (stop allCallbacks s).2) (stop allCallbacks s).1 := by
  have hev : (stop allCallbacks s).2 =
      s.items.map fun it => Event.itemRemove it.id := rfl
  rw [hev]
  refine ⟨fun id => ?_, ?_, ?_⟩
  · have hit : (stop allCallbacks s).1.items = ([] : List Item) := rfl
    have hnil : itemIds ([] : List Item) = [] := rfl
    rw [createdIds_append, removedIds_append, createdIds_map_itemRemove,
      removedIds_map_itemRemove, List.append_nil, List.count_append, hit, hnil]
    have hh := h.1 id
    simp only [List.count_nil]
    omega
  · rw [createdIds_append, createdIds_map_itemRemove, List.append_nil]
    exact h.2.1
  · intro id hid
    rw [createdIds_append, createdIds_map_itemRemove, List.append_nil] at hid
    exact h.2.2 id hid

theorem idInv_pose (label : String) (s : GameState) (evs : List Event)
    (h : IdInv evs s) :
    IdInv (evs ++ (onPoseDetected allCallbacks label s).2)
      (onPoseDetected allCallbacks label s).1 := by
  by_cases ha : s.isGameActive = true
  · cases hz : poseToZone label with
    | none =>
      simp only [onPoseDetected, if_pos ha, hz]
      rw [List.append_nil]
      exact h
    | some z =>
      by_cases hb : z ≠ s.basketPosition
      · simp only [onPoseDetected, if_pos ha, hz, if_pos hb]
        exact idInv_aux rfl rfl
          (createdIds_ite _ _ _ rfl rfl) (removedIds_ite _ _ _ rfl rfl) h
      · simp only [onPoseDetected, if_pos ha, hz, if_neg hb]
        rw [List.append_nil]
        exact h
  · simp only [onPoseDetected, if_neg ha]
    rw [List.append_nil]
    exact h

theorem idInv_levelUpTick (s : GameState) (evs : List Event) (h : IdInv evs s) :
    IdInv (evs ++ (levelUpTick allCallbacks s).2) (levelUpTick allCallbacks s).1 := by
  by_cases h5 : s.level < 5
  · simp only [levelUpTick, if_pos h5]
    exact idInv_aux rfl rfl (createdIds_notify _ _) (removedIds_notify _ _) h
  · simp only [levelUpTick, if_neg h5]
    rw [List.append_nil]
    exact h

theorem idInv_start (r1 r2 : ℚ) (now : Int) (s : GameState) :
    IdInv (start allCallbacks r1 r2 now s).2 (start allCallbacks r1 r2 now s).1 := by
  have h0 : IdInv (notifyScoreChange allCallbacks
      { s with isGameActive := true, score := 0, level := 1, missCount := 0,
               combo := 0, fruitsCaught := 0, basketPosition := "CENTER",
               items := [], itemIdCounter := 0, gameStartTime := now })
      { s with isGameActive := true, score := 0, level := 1, missCount := 0,
               combo := 0, fruitsCaught := 0, basketPosition := "CENTER",
               items := [], itemIdCounter := 0, gameStartTime := now,
               levelUpTimer := true } := by
    refine ⟨fun id => ?_, ?_, ?_⟩
    · rw [createdIds_notify, removedIds_notify]
      rfl
    · rw [createdIds_notify]
      exact List.nodup_nil
    · intro id hid
      rw [createdIds_notify] at hid
      exact absurd hid (List.not_mem_nil id)
  exact idInv_gameLoopStep now _ _ (idInv_spawnItem r1 r2 now _ _ h0)

theorem idInv_step (c : Cmd) (hns : c.isStart = false) (s : GameState)
    (evs : List Event) (h : IdInv evs s) :
    IdInv (evs ++ (step allCallbacks s c).2) (step allCallbacks s c).1 := by
  cases c with
  | start r1 r2 now => simp [Cmd.isStart] at hns
  | stop => exact idInv_stop s evs h
  | pose label => exact idInv_pose label s evs h
  | spawn r1 r2 now =>
    by_cases hg : s.itemSpawnTimer = true
    · simp only [step, if_pos hg]
      exact idInv_spawnItem r1 r2 now s evs h
    · simp only [step, if_neg hg]
      rw [List.append_nil]
      exact h
  | frame now =>
    by_cases hg : s.animationId = true
    · simp only [step, if_pos hg]
      exact idInv_gameLoopStep now s evs h
    · simp only [step, if_neg hg]
      rw [List.append_nil]
      exact h
  | levelTimer =>
    by_cases hg : s.levelUpTimer = true
    · simp only [step, if_pos hg]
      exact idInv_levelUpTick s evs h
    · simp only [step, if_neg hg]
      rw [List.append_nil]
      exact h

theorem idInv_run :
    ∀ (cmds : List Cmd), (∀ c ∈ cmds, c.isStart = false) →
      ∀ (s : GameState) (evs : List Event), IdInv evs s →
        IdInv (evs ++ (run allCallbacks s cmds).2)
          (run allCallbacks s cmds).1 := by
  intro cmds
  induction cmds with
  | nil =>
    intro _ s evs h
    show IdInv (evs ++ []) s
    rw [List.append_nil]
    exact h
  | cons c cs ih =>
    intro hall s evs h
    have h1 := idInv_step c (hall c (by simp)) s evs h
    have h2 := ih (fun d hd => hall d (by simp [hd])) _ _ h1
    show IdInv (evs ++ ((step allCallbacks s c).2 ++
        (run allCallbacks (step allCallbacks s c).1 cs).2))
      (run allCallbacks (step allCallbacks s c).1 cs).1
    rw [← List.append_assoc]
    exact h2

end FruitGame

namespace FruitGame

/-- Claim C3 (amended): over any session that begins with `start()`, item
lifecycle bookkeeping holds: no item id is ever announced as removed more
than once, and at every point the multiset of created ids equals the removed
ids plus the ids still in the items collection.  The "exactly once removed"
round trip holds when the session is terminated by `stop()`; an `endGame`
termination (bomb catch or third miss) leaves airborne items in the
collection without removal notifications. -/
theorem C3_roundtrip_amended (r1 r2 : ℚ) (t : Int) (rest : List Cmd)
    (hrest : ∀ c ∈ rest, c.isStart = false) :
    (∀ id, (removedIds (run allCallbacks initialState
        (Cmd.start r1 r2 t :: rest)).2).count id ≤ 1) ∧
    (∀ id, (createdIds (run allCallbacks initialState
        (Cmd.start r1 r2 t :: rest)).2).count id =
      (removedIds (run allCallbacks initialState
        (Cmd.start r1 r2 t :: rest)).2).count id +
      (itemIds (run allCallbacks initialState
        (Cmd.start r1 r2 t :: rest)).1.items).count id) ∧
    (∀ pre, rest = pre ++ [Cmd.stop] →
      ∀ id ∈ createdIds (run allCallbacks initialState
          (Cmd.start r1 r2 t :: rest)).2,
        (removedIds (run allCallbacks initialState
          (Cmd.start r1 r2 t :: rest)).2).count id = 1) := by
  have h0 := idInv_start r1 r2 t initialState
  have hrun := idInv_run rest hrest _ _ h0
  have hev : (run allCallbacks initialState (Cmd.start r1 r2 t :: rest)).2 =
      (start allCallbacks r1 r2 t initialState).2 ++
      (run allCallbacks (start allCallbacks r1 r2 t initialState).1 rest).2 :=
    rfl
  have hst : (run allCallbacks initialState (Cmd.start r1 r2 t :: rest)).1 =
      (run allCallbacks (start allCallbacks r1 r2 t initialState).1 rest).1 :=
    rfl
  rw [hev, hst]
  refine ⟨fun id => ?_, hrun.1, ?_⟩
  · have hc := List.nodup_iff_count_le_one.mp hrun.2.1 id
    have he := hrun.1 id
    omega
  · intro pre hpre id hid
    subst hpre
    have hitems : (run allCallbacks (start allCallbacks r1 r2 t initialState).1
        (pre ++ [Cmd.stop])).1.items = [] := by
      rw [run_append]
      rfl
    have he := hrun.1 id
    have hnil : itemIds ([] : List Item) = [] := rfl
    rw [hitems, hnil, List.count_nil] at he
    have hpos : 0 < (createdIds
        ((start allCallbacks r1 r2 t initialState).2 ++
          (run allCallbacks (start allCallbacks r1 r2 t initialState).1
            (pre ++ [Cmd.stop])).2)).count id :=
      List.count_pos_iff.mpr hid
    have hc1 := List.nodup_iff_count_le_one.mp hrun.2.1 id
    omega

theorem C3_roundtrip_amended_witness :
    Cmd.isStart Cmd.stop = false ∧
    (removedIds (run allCallbacks initialState
        (Cmd.start 0 0 0 :: [Cmd.stop])).2).count 0 ≤ 1 :=
  ⟨rfl, (C3_roundtrip_amended 0 0 0 [Cmd.stop]
      (fun c hc => by rw [List.mem_singleton] at hc; subst hc; rfl)).1 0⟩

end FruitGame
